import Mathlib

/-!
Shallow embedding of `src/transcript_api.py` (freecash-youtube-transcript-service).

The service is a single Flask module.  We embed:
  * `extract_video_id` (lines 24-42): full-match of an 11-char id, else a
    left-to-right search of three literal-prefix regex patterns;
  * `format_time` (lines 45-53): Python `int()` truncation, `//` and `%`
    (floor division / floor modulus), and `f"{x:02d}"` zero padding;
  * the caption / whisper segment loops (lines 77-88 and 134-146), including
    `.replace("\n", " ")` and `.strip()` on segment text;
  * the `/transcript` route (lines 157-195) as a function over an abstract
    `World` describing the outcomes of the external collaborators
    (captions provider, audio download + speech recognition, API key),
    which also records which collaborators were invoked and with what
    argument.
-/

namespace TranscriptApi

/-- Characters allowed in a video id: `[0-9A-Za-z_-]`. -/
def isIdChar (c : Char) : Bool := c.isAlphanum || c == '_' || c == '-'

/-- A literal pattern matches at the head of `cs` (character-wise equality),
mirroring the regex engine matching the literal part of each pattern. -/
def startsWithChars : List Char → List Char → Bool
  | [], _ => true
  | _ :: _, [] => false
  | a :: as, b :: bs => a == b && startsWithChars as bs

/-- Try to match `pfx` followed by exactly 11 id characters at the head of
`cs`; on success return the 11 captured characters (regex group 1). -/
def matchAt (pfx : List Char) (cs : List Char) : Option (List Char) :=
  if startsWithChars pfx cs then
    if ((cs.drop pfx.length).take 11).length == 11
        && ((cs.drop pfx.length).take 11).all isIdChar then
      some ((cs.drop pfx.length).take 11)
    else none
  else none

/-- `re.search`: try the pattern at every start position, leftmost first. -/
def searchPat (pfx : List Char) : List Char → Option (List Char)
  | [] => matchAt pfx []
  | c :: cs =>
    match matchAt pfx (c :: cs) with
    | some r => some r
    | none => searchPat pfx cs

/-- Literal part of `r"youtube\.com/watch\?v=([0-9A-Za-z_-]{11})"`. -/
def watchPat : List Char := "youtube.com/watch?v=".data

/-- Literal part of `r"youtu\.be/([0-9A-Za-z_-]{11})"`. -/
def bePat : List Char := "youtu.be/".data

/-- Literal part of `r"youtube\.com/embed/([0-9A-Za-z_-]{11})"`. -/
def embedPat : List Char := "youtube.com/embed/".data

/-- `extract_video_id` (source lines 24-42): if the whole input full-matches
`[0-9A-Za-z_-]{11}` return it; otherwise search the three URL patterns in
order; otherwise `None`. -/
def extract_video_id (s : String) : Option String :=
  if s.data.length == 11 && s.data.all isIdChar then some s
  else
    match searchPat watchPat s.data with
    | some r => some (String.mk r)
    | none =>
      match searchPat bePat s.data with
      | some r => some (String.mk r)
      | none =>
        match searchPat embedPat s.data with
        | some r => some (String.mk r)
        | none => none

/-- Python `int()` on a rational: truncation toward zero. -/
def pyInt (q : ℚ) : ℤ := if 0 ≤ q then ⌊q⌋ else -⌊-q⌋

/-- Python `f"{n:02d}"`: decimal rendering left-padded with `0` to width 2. -/
def intPad2 (n : ℤ) : String :=
  if (toString n).length < 2 then "0" ++ toString n else toString n

/-- `format_time` (source lines 45-53): truncate to an integer number of
seconds, then `h = s // 3600`, `m = (s % 3600) // 60`, `s = s % 60`
(Python floor division and floor modulus), each rendered with `{:02d}`. -/
def format_time (q : ℚ) : String :=
  let n := pyInt q
  intPad2 (n.fdiv 3600) ++ ":" ++ intPad2 ((n.emod 3600).fdiv 60) ++ ":"
    ++ intPad2 (n.emod 60)

/-- Python `c for c in s` after `s.replace("\n", " ")`: each newline becomes
one space (single-character pattern, so `replace` is a character map). -/
def nlToSpace (c : Char) : Char := if c == '\n' then ' ' else c

/-- Drop trailing characters satisfying `p` (right half of `str.strip()`). -/
def dropTrailing (p : Char → Bool) : List Char → List Char
  | [] => []
  | a :: as =>
    match dropTrailing p as with
    | [] => if p a then [] else [a]
    | b :: bs => a :: b :: bs

/-- Python `str.strip()`: drop leading and trailing whitespace.
(`Char.isWhitespace` covers space, tab, CR, LF, the whitespace that occurs
in the data handled by the service.) -/
def pyStrip (cs : List Char) : List Char :=
  dropTrailing Char.isWhitespace (cs.dropWhile Char.isWhitespace)

/-- `entry["text"].replace("\n", " ").strip()` (source line 80). -/
def normText (s : String) : String := String.mk (pyStrip (s.data.map nlToSpace))

/-- `seg.get("text", "").strip()` (source line 138): strip only, no newline
replacement on the whisper path. -/
def stripText (s : String) : String := String.mk (pyStrip s.data)

/-- A raw caption entry as returned by the captions provider
(`{"start": ..., "text": ...}`). -/
structure CapSegment where
  start : ℚ
  text : String
deriving DecidableEq

/-- A raw whisper segment (`seg.get("start", 0.0)`, `seg.get("text", "")`). -/
structure AsrSegment where
  start : ℚ
  text : String
deriving DecidableEq

/-- The caption formatting loop and join of
`build_timed_transcript_from_youtube` (source lines 77-88). -/
def formatBlocks (raw : List CapSegment) : String :=
  String.intercalate "\n\n" (raw.filterMap fun e =>
    let t := normText e.text
    if t = "" then none else some (format_time e.start ++ "\n" ++ t))

/-- The whisper formatting loop and join of
`build_timed_transcript_from_whisper` (source lines 134-146). -/
def formatBlocksAsr (segs : List AsrSegment) : String :=
  String.intercalate "\n\n" (segs.filterMap fun e =>
    let t := stripText e.text
    if t = "" then none else some (format_time e.start ++ "\n" ++ t))

/-- Failure kinds of the captions attempt, mirroring the exception types of
`youtube_transcript_api` plus the generic `Exception` arm of the route:
`TranscriptsDisabled`, `NoTranscriptFound`, `CouldNotRetrieveTranscript`,
`VideoUnavailable` (a `CouldNotRetrieveTranscript` subclass), and any other
exception.  The route treats every one of them the same way (lines 174-179):
fall through to the whisper fallback. -/
inductive CapErr where
  | disabled
  | noTrackForLanguages
  | retrievalFailed
  | unavailable
  | otherException
deriving DecidableEq

/-- Outcome of `YouTubeTranscriptApi` for this request: either the fetched
raw entries of the selected track, or a raised exception of some kind. -/
inductive CapOutcome where
  | success (raw : List CapSegment)
  | failure (k : CapErr)
deriving DecidableEq

/-- Outcome of the download + whisper call, reached only when the API key is
set: either the segments of the `verbose_json` response (`result.segments or
[]`), or an exception somewhere in download/transcription. -/
inductive AsrOutcome where
  | success (segs : List AsrSegment)
  | failure
deriving DecidableEq

/-- The external world one request observes: whether `OPENAI_API_KEY` is
set, what the captions provider does, and what download + whisper do. -/
structure World where
  hasKey : Bool
  captions : CapOutcome
  asr : AsrOutcome
deriving DecidableEq

/-- The JSON body of the POST request as seen through
`request.get_json(silent=True) or {}`: a missing body, an invalid JSON
body and a non-object body all give `None`/falsy and hence `{}`;
otherwise the body is an object whose `video_url` field may be absent. -/
inductive Body where
  | noneOrInvalid
  | obj (video_url : Option String)
deriving DecidableEq

/-- An HTTP response: status code and the JSON object passed to `jsonify`,
as an insertion-ordered association list (all values in this service are
strings). -/
structure Response where
  status : Nat
  body : List (String × String)
deriving DecidableEq

/-- Which collaborators the route invoked, and with which argument:
`extract_video_id`, `build_timed_transcript_from_youtube` (the captions
provider), `build_timed_transcript_from_whisper`, and `download_audio`. -/
structure Effects where
  resolver : Option String
  captionsProvider : Option String
  whisperFallback : Option String
  download : Option String
deriving DecidableEq

/-- No collaborator invoked. -/
def noEff : Effects := ⟨none, none, none, none⟩

/-- The `/transcript` route (source lines 157-195) as a function of the
request body and the world.  Mirrors the source: missing/empty `video_url`
→ 400; unresolvable reference → 400; captions success → 200 with the
`youtube_captions` dict; ANY captions exception → whisper fallback, which
returns the `error` dict (status 500) when the key is missing, the
`whisper_fallback` dict (status 200) on success, and the catch-all error
dict (status 500) when download/transcription raises. -/
def transcriptHandler (w : World) (b : Body) : Response × Effects :=
  let data : Option String :=
    match b with
    | .noneOrInvalid => none
    | .obj u => u
  match data with
  | none => (⟨400, [("error", "Missing 'video_url' in JSON body")]⟩, noEff)
  | some u =>
    if u = "" then
      (⟨400, [("error", "Missing 'video_url' in JSON body")]⟩, noEff)
    else
      match extract_video_id u with
      | none =>
        (⟨400, [("error", "Could not extract video_id from URL")]⟩,
         ⟨some u, none, none, none⟩)
      | some vid =>
        match w.captions with
        | .success raw =>
          (⟨200, [("source", "youtube_captions"), ("video_id", vid),
                  ("transcript", formatBlocks raw), ("video_url", u)]⟩,
           ⟨some u, some vid, none, none⟩)
        | .failure _ =>
          if w.hasKey then
            match w.asr with
            | .success segs =>
              (⟨200, [("source", "whisper_fallback"), ("video_id", vid),
                      ("transcript", formatBlocksAsr segs), ("video_url", u)]⟩,
               ⟨some u, some vid, some vid, some u⟩)
            | .failure =>
              (⟨500, [("error", "Failed to generate transcript from captions or audio."),
                      ("video_id", vid), ("video_url", u)]⟩,
               ⟨some u, some vid, some vid, some u⟩)
          else
            (⟨500, [("source", "error"), ("video_id", vid),
                    ("error", "OPENAI_API_KEY not set on server; cannot run ASR fallback."),
                    ("video_url", u)]⟩,
             ⟨some u, some vid, some vid, none⟩)

/-! ### Helper lemmas -/

lemma matchAt_shape {pfx cs r : List Char} (h : matchAt pfx cs = some r) :
    r.length = 11 ∧ r.all isIdChar = true := by
  unfold matchAt at h
  split at h
  · split at h
    · rename_i hc
      rw [Bool.and_eq_true] at hc
      cases h
      exact ⟨beq_iff_eq.mp hc.1, hc.2⟩
    · exact Option.noConfusion h
  · exact Option.noConfusion h

lemma searchPat_shape {pfx : List Char} :
    ∀ {cs r : List Char}, searchPat pfx cs = some r →
      r.length = 11 ∧ r.all isIdChar = true := by
  intro cs
  induction cs with
  | nil => exact fun h => matchAt_shape h
  | cons c cs ih =>
    intro r h
    rw [searchPat] at h
    cases hm : matchAt pfx (c :: cs) with
    | some r2 => rw [hm] at h; cases h; exact matchAt_shape hm
    | none => rw [hm] at h; exact ih h

lemma searchPat_cons_none {pfx : List Char} {c : Char} {cs : List Char}
    (h : matchAt pfx (c :: cs) = none) :
    searchPat pfx (c :: cs) = searchPat pfx cs := by
  rw [searchPat, h]

lemma startsWithChars_false_of_id {pfx : List Char}
    (hp : ∃ c ∈ pfx, isIdChar c = false) :
    ∀ {cs : List Char}, (∀ c ∈ cs, isIdChar c = true) →
      startsWithChars pfx cs = false := by
  induction pfx with
  | nil => exact fun _ => absurd hp (by simp)
  | cons p ps ih =>
    intro cs hcs
    cases cs with
    | nil => rfl
    | cons c cs' =>
      rw [startsWithChars]
      by_cases hpc : p = c
      · subst hpc
        obtain ⟨d, hd, hdbad⟩ := hp
        rcases List.mem_cons.mp hd with rfl | hd'
        · rw [hcs d (List.mem_cons_self d cs')] at hdbad
          exact Bool.noConfusion hdbad
        · rw [ih ⟨d, hd', hdbad⟩ fun c hc => hcs c (List.mem_cons_of_mem _ hc)]
          simp
      · have : (p == c) = false := beq_eq_false_iff_ne.mpr hpc
        rw [this, Bool.false_and]

lemma searchPat_none_of_id {pfx : List Char}
    (hp : ∃ c ∈ pfx, isIdChar c = false) :
    ∀ {cs : List Char}, (∀ c ∈ cs, isIdChar c = true) →
      searchPat pfx cs = none := by
  intro cs
  induction cs with
  | nil =>
    intro _
    have hpfx : pfx ≠ [] := by rintro rfl; simp at hp
    obtain ⟨p, ps, rfl⟩ := List.exists_cons_of_ne_nil hpfx
    rfl
  | cons c cs' ih =>
    intro hcs
    have hm : matchAt pfx (c :: cs') = none := by
      unfold matchAt
      rw [startsWithChars_false_of_id hp hcs]
      simp
    rw [searchPat_cons_none hm]
    exact ih fun d hd => hcs d (List.mem_cons_of_mem _ hd)

lemma extract_video_id_shape {s v : String} (h : extract_video_id s = some v) :
    v.length = 11 ∧ ∀ c ∈ v.data, isIdChar c = true := by
  unfold extract_video_id at h
  split at h
  · rename_i hc
    rw [Bool.and_eq_true] at hc
    cases h
    exact ⟨beq_iff_eq.mp hc.1, List.all_eq_true.mp hc.2⟩
  · cases h1 : searchPat watchPat s.data with
    | some r =>
      rw [h1] at h; cases h
      obtain ⟨ha, hb⟩ := searchPat_shape h1
      exact ⟨ha, List.all_eq_true.mp hb⟩
    | none =>
      rw [h1] at h
      cases h2 : searchPat bePat s.data with
      | some r =>
        rw [h2] at h; cases h
        obtain ⟨ha, hb⟩ := searchPat_shape h2
        exact ⟨ha, List.all_eq_true.mp hb⟩
      | none =>
        rw [h2] at h
        cases h3 : searchPat embedPat s.data with
        | some r =>
          rw [h3] at h; cases h
          obtain ⟨ha, hb⟩ := searchPat_shape h3
          exact ⟨ha, List.all_eq_true.mp hb⟩
        | none => rw [h3] at h; exact Option.noConfusion h

lemma filterMap_eq_map_of_some {α β : Type} (f : α → Option β) (g : α → β) :
    ∀ l : List α, (∀ a ∈ l, f a = some (g a)) → l.filterMap f = l.map g := by
  intro l
  induction l with
  | nil => intro _; rfl
  | cons a l ih =>
    intro h
    rw [List.filterMap_cons, h a (List.mem_cons_self a l), List.map_cons,
      ih fun x hx => h x (List.mem_cons_of_mem _ hx)]

lemma mem_dropWhile_imp {p : Char → Bool} :
    ∀ {l : List Char} {c : Char}, c ∈ l.dropWhile p → c ∈ l := by
  intro l
  induction l with
  | nil => intro c h; exact absurd h (by simp [List.dropWhile])
  | cons a as ih =>
    intro c h
    rw [List.dropWhile_cons] at h
    split at h
    · exact List.mem_cons_of_mem _ (ih h)
    · exact h

lemma dropTrailing_cons_of_nil {p : Char → Bool} {a : Char} {as : List Char}
    (hd : dropTrailing p as = []) :
    dropTrailing p (a :: as) = if p a then [] else [a] := by
  conv_lhs => rw [dropTrailing]
  rw [hd]

lemma dropTrailing_cons_of_cons {p : Char → Bool} {a b : Char}
    {as bs : List Char} (hd : dropTrailing p as = b :: bs) :
    dropTrailing p (a :: as) = a :: b :: bs := by
  conv_lhs => rw [dropTrailing]
  rw [hd]

lemma mem_dropTrailing_imp {p : Char → Bool} :
    ∀ {l : List Char} {c : Char}, c ∈ dropTrailing p l → c ∈ l := by
  intro l
  induction l with
  | nil => intro c h; exact absurd h (List.not_mem_nil c)
  | cons a as ih =>
    intro c h
    cases hd : dropTrailing p as with
    | nil =>
      rw [dropTrailing_cons_of_nil hd] at h
      by_cases hpa : p a = true
      · rw [if_pos hpa] at h
        exact absurd h (List.not_mem_nil c)
      · rw [if_neg hpa, List.mem_singleton] at h
        exact h ▸ List.mem_cons_self a as
    | cons b bs =>
      rw [dropTrailing_cons_of_cons hd] at h
      rcases List.mem_cons.mp h with rfl | h'
      · exact List.mem_cons_self c as
      · exact List.mem_cons_of_mem _ (ih (hd ▸ h'))

lemma head?_dropWhile_not {p : Char → Bool} :
    ∀ {l : List Char} {c : Char}, (l.dropWhile p).head? = some c → p c = false := by
  intro l
  induction l with
  | nil => intro c h; exact Option.noConfusion h
  | cons a as ih =>
    intro c h
    rw [List.dropWhile_cons] at h
    split at h
    · exact ih h
    · rename_i hp
      rw [List.head?_cons, Option.some.injEq] at h
      have hpa : p a = false := by simpa using hp
      exact h ▸ hpa

lemma head?_dropTrailing {p : Char → Bool} :
    ∀ {l : List Char} {c : Char},
      (dropTrailing p l).head? = some c → l.head? = some c := by
  intro l
  induction l with
  | nil => intro c h; exact Option.noConfusion h
  | cons a as _ =>
    intro c h
    cases hd : dropTrailing p as with
    | nil =>
      rw [dropTrailing_cons_of_nil hd] at h
      by_cases hpa : p a = true
      · rw [if_pos hpa] at h
        exact Option.noConfusion h
      · rw [if_neg hpa, List.head?_cons, Option.some.injEq] at h
        rw [List.head?_cons, h]
    | cons b bs =>
      rw [dropTrailing_cons_of_cons hd] at h
      rw [List.head?_cons, Option.some.injEq] at h
      rw [List.head?_cons, h]

lemma getLast?_dropTrailing_not {p : Char → Bool} :
    ∀ {l : List Char} {c : Char},
      (dropTrailing p l).getLast? = some c → p c = false := by
  intro l
  induction l with
  | nil => intro c h; exact Option.noConfusion h
  | cons a as ih =>
    intro c h
    cases hd : dropTrailing p as with
    | nil =>
      rw [dropTrailing_cons_of_nil hd] at h
      by_cases hpa : p a = true
      · rw [if_pos hpa] at h
        exact Option.noConfusion h
      · rw [if_neg hpa, List.getLast?_singleton, Option.some.injEq] at h
        have hpf : p a = false := by simpa using hpa
        exact h ▸ hpf
    | cons b bs =>
      rw [dropTrailing_cons_of_cons hd, List.getLast?_cons_cons] at h
      exact ih (hd ▸ h)

lemma pyStrip_mem {cs : List Char} {c : Char} (h : c ∈ pyStrip cs) : c ∈ cs :=
  mem_dropWhile_imp (mem_dropTrailing_imp h)

lemma normText_no_newline {s : String} {c : Char}
    (h : c ∈ (normText s).data) : c ≠ '\n' := by
  have h1 : c ∈ s.data.map nlToSpace := pyStrip_mem h
  obtain ⟨a, _, rfl⟩ := List.mem_map.mp h1
  unfold nlToSpace
  split
  · decide
  · rename_i ha
    exact fun hcon => ha (hcon ▸ beq_self_eq_true '\n')

lemma normText_head_not_ws {s : String} {c : Char}
    (h : (normText s).data.head? = some c) : c.isWhitespace = false :=
  head?_dropWhile_not (head?_dropTrailing h)

lemma normText_getLast_not_ws {s : String} {c : Char}
    (h : (normText s).data.getLast? = some c) : c.isWhitespace = false :=
  getLast?_dropTrailing_not h

lemma formatBlocks_of_empty {raw : List CapSegment}
    (h : ∀ e ∈ raw, normText e.text = "") : formatBlocks raw = "" := by
  unfold formatBlocks
  have hnil : (raw.filterMap fun e =>
      let t := normText e.text
      if t = "" then none else some (format_time e.start ++ "\n" ++ t)) = [] := by
    induction raw with
    | nil => rfl
    | cons a l ih =>
      rw [List.filterMap_cons]
      have ha := h a (List.mem_cons_self a l)
      simp only [ha, if_pos rfl]
      exact ih fun e he => h e (List.mem_cons_of_mem _ he)
  rw [hnil]
  rfl

lemma formatBlocksAsr_of_empty {segs : List AsrSegment}
    (h : ∀ e ∈ segs, stripText e.text = "") : formatBlocksAsr segs = "" := by
  unfold formatBlocksAsr
  have hnil : (segs.filterMap fun e =>
      let t := stripText e.text
      if t = "" then none else some (format_time e.start ++ "\n" ++ t)) = [] := by
    induction segs with
    | nil => rfl
    | cons a l ih =>
      rw [List.filterMap_cons]
      have ha := h a (List.mem_cons_self a l)
      simp only [ha, if_pos rfl]
      exact ih fun e he => h e (List.mem_cons_of_mem _ he)
  rw [hnil]
  rfl

/-! ### Claim theorems -/

/-- C1, counterexample: with the captions stage failing with kind
`unavailable`, the route still invokes the whisper (ASR) fallback — the
`except` clauses at lines 174-179 catch every caption failure, including
`VideoUnavailable` (a `CouldNotRetrieveTranscript` subclass), and fall
through — and the run ends in a 200 ASR success, not a terminal
`video_unavailable` error.  This refutes the claim's second half. -/
theorem c1_counterexample :
    (transcriptHandler ⟨true, .failure .unavailable, .success [⟨0, "Hi"⟩]⟩
        (.obj (some "dQw4w9WgXcQ"))).2.whisperFallback = some "dQw4w9WgXcQ"
    ∧ (transcriptHandler ⟨true, .failure .unavailable, .success [⟨0, "Hi"⟩]⟩
        (.obj (some "dQw4w9WgXcQ"))).1.status = 200 := by
  decide

/-- C1 (amended): on a captions failure of ANY kind — `disabled`,
`no_track_for_languages`, `retrieval_failed`, or `unavailable` — the
orchestrator proceeds to the ASR attempt; there is no terminal
`video_unavailable` path. -/
theorem c1_fallback_on_all_caption_failures :
    ∀ (w : World) (u vid : String) (k : CapErr), u ≠ "" →
      extract_video_id u = some vid → w.captions = .failure k →
      (transcriptHandler w (.obj (some u))).2.whisperFallback = some vid := by
  intro w u vid k hu hex hcap
  cases hk : w.hasKey with
  | false => simp [transcriptHandler, hu, hex, hcap, hk]
  | true =>
    cases ha : w.asr with
    | success segs => simp [transcriptHandler, hu, hex, hcap, hk, ha]
    | failure => simp [transcriptHandler, hu, hex, hcap, hk, ha]

/-- C1 witness: concrete run with a `disabled` caption failure reaches the
whisper fallback. -/
theorem c1_fallback_witness :
    (transcriptHandler ⟨false, .failure .disabled, .failure⟩
        (.obj (some "dQw4w9WgXcQ"))).2.whisperFallback = some "dQw4w9WgXcQ" :=
  c1_fallback_on_all_caption_failures _ _ _ CapErr.disabled (by decide)
    (by decide) rfl

/-- C2, counterexample: a `/shorts/` URL carrying a valid 11-character id is
NOT resolved — `extract_video_id` has no shorts pattern and returns `None`,
refuting the claim for the fourth URL shape. -/
theorem c2_counterexample :
    extract_video_id "https://youtube.com/shorts/dQw4w9WgXcQ" = none := by
  decide

/-- C2 (amended): for the `watch?v=`, `youtu.be/` and `/embed/` URL shapes
carrying a valid 11-character id, `extract_video_id` returns exactly that
id; the `/shorts/` shape is not recognized and resolves to `None`. -/
theorem c2_url_shapes :
    ∀ id : String, id.length = 11 → (∀ c ∈ id.data, isIdChar c = true) →
      extract_video_id ("https://youtube.com/watch?v=" ++ id) = some id
      ∧ extract_video_id ("https://youtu.be/" ++ id) = some id
      ∧ extract_video_id ("https://youtube.com/embed/" ++ id) = some id
      ∧ extract_video_id ("https://youtube.com/shorts/" ++ id) = none := by
  intro id hlen hchars
  have hlen' : id.data.length = 11 := hlen
  have hall : id.data.all isIdChar = true := List.all_eq_true.mpr hchars
  have htake : id.data.take 11 = id.data := by
    rw [← hlen']; exact List.take_length ..
  have hmk : String.mk id.data = id := by cases id; rfl
  have hwatchL : searchPat ['y', 'o', 'u', 't', 'u', 'b', 'e', '.', 'c', 'o',
      'm', '/', 'w', 'a', 't', 'c', 'h', '?', 'v', '='] id.data = none :=
    searchPat_none_of_id ⟨'.', by decide⟩ hchars
  have hbeL : searchPat ['y', 'o', 'u', 't', 'u', '.', 'b', 'e', '/']
      id.data = none :=
    searchPat_none_of_id ⟨'.', by decide⟩ hchars
  have hembedL : searchPat ['y', 'o', 'u', 't', 'u', 'b', 'e', '.', 'c', 'o',
      'm', '/', 'e', 'm', 'b', 'e', 'd', '/'] id.data = none :=
    searchPat_none_of_id ⟨'.', by decide⟩ hchars
  refine ⟨?_, ?_, ?_, ?_⟩ <;>
    (unfold extract_video_id
     rw [String.data_append]
     simp [searchPat, matchAt, startsWithChars, watchPat, bePat, embedPat,
       hlen', hall, htake, hmk, hwatchL, hbeL, hembedL])

/-- C2 witness: the three supported shapes resolve `dQw4w9WgXcQ`, the shorts
shape does not. -/
theorem c2_url_shapes_witness :
    extract_video_id ("https://youtube.com/watch?v=" ++ "dQw4w9WgXcQ")
        = some "dQw4w9WgXcQ"
    ∧ extract_video_id ("https://youtu.be/" ++ "dQw4w9WgXcQ")
        = some "dQw4w9WgXcQ"
    ∧ extract_video_id ("https://youtube.com/embed/" ++ "dQw4w9WgXcQ")
        = some "dQw4w9WgXcQ"
    ∧ extract_video_id ("https://youtube.com/shorts/" ++ "dQw4w9WgXcQ")
        = none :=
  c2_url_shapes "dQw4w9WgXcQ" (by decide) (by decide)

/-- C3: on segments with non-negative starts and non-empty, already
normalized text (the data-model invariant for `TranscriptSegment`: trimmed,
no embedded line break), the formatter emits, in input order, the
`HH:MM:SS` timestamp of the truncated start, a newline, and the text,
with blocks joined by one blank line; empty input yields the empty string;
the spec's example is reproduced; hours are unbounded and fields are
zero-padded (`format_time 90000 = "25:00:00"`). -/
theorem c3_formatter :
    (∀ segs : List CapSegment,
        (∀ e ∈ segs, 0 ≤ e.start ∧ e.text ≠ "" ∧ normText e.text = e.text) →
        formatBlocks segs =
          String.intercalate "\n\n"
            (segs.map fun e => format_time e.start ++ "\n" ++ e.text))
    ∧ formatBlocks [] = ""
    ∧ formatBlocks [⟨0, "Hello"⟩, ⟨65, "World"⟩]
        = "00:00:00\nHello\n\n00:01:05\nWorld"
    ∧ format_time 90000 = "25:00:00" := by
  refine ⟨?_, rfl, by decide, by decide⟩
  intro segs h
  have hmap : (segs.filterMap fun e =>
      let t := normText e.text
      if t = "" then none else some (format_time e.start ++ "\n" ++ t))
      = segs.map fun e => format_time e.start ++ "\n" ++ e.text := by
    apply filterMap_eq_map_of_some
    intro e he
    obtain ⟨_, hne, hnorm⟩ := h e he
    simp [hnorm, hne]
  unfold formatBlocks
  rw [hmap]

/-- C3 witness: the formatter characterization applied to the spec's
two-segment example. -/
theorem c3_formatter_witness :
    formatBlocks [⟨0, "Hello"⟩, ⟨65, "World"⟩] =
      String.intercalate "\n\n"
        (([⟨0, "Hello"⟩, ⟨65, "World"⟩] : List CapSegment).map
          fun e => format_time e.start ++ "\n" ++ e.text) :=
  c3_formatter.1 _ (by decide)

/-- C4: when `OPENAI_API_KEY` is absent and captions failed, the whisper
stage is entered but returns its not-configured error immediately — the
response is a terminal failure (status 500, `source = "error"`, the
not-configured message) and `download_audio` is never invoked. -/
theorem c4_asr_not_configured :
    ∀ (w : World) (u vid : String) (k : CapErr), u ≠ "" →
      extract_video_id u = some vid → w.captions = .failure k →
      w.hasKey = false →
      (transcriptHandler w (.obj (some u))).1.status = 500
      ∧ ("source", "error") ∈ (transcriptHandler w (.obj (some u))).1.body
      ∧ ("error", "OPENAI_API_KEY not set on server; cannot run ASR fallback.")
          ∈ (transcriptHandler w (.obj (some u))).1.body
      ∧ (transcriptHandler w (.obj (some u))).2.whisperFallback = some vid
      ∧ (transcriptHandler w (.obj (some u))).2.download = none := by
  intro w u vid k hu hex hcap hk
  simp [transcriptHandler, hu, hex, hcap, hk]

/-- C4 witness: concrete run without a key performs no download. -/
theorem c4_asr_not_configured_witness :
    (transcriptHandler ⟨false, .failure .retrievalFailed, .failure⟩
        (.obj (some "dQw4w9WgXcQ"))).2.download = none :=
  (c4_asr_not_configured ⟨false, .failure .retrievalFailed, .failure⟩
    "dQw4w9WgXcQ" "dQw4w9WgXcQ" CapErr.retrievalFailed (by decide) (by decide)
    rfl rfl).2.2.2.2

/-- C5, counterexample: a captions success with zero segments produces a
200 success response whose `transcript` field is the empty string — not a
`no_transcript_available` failure — refuting the claim. -/
theorem c5_counterexample :
    (transcriptHandler ⟨true, .success [], .success []⟩
        (.obj (some "dQw4w9WgXcQ"))).1 =
      ⟨200, [("source", "youtube_captions"), ("video_id", "dQw4w9WgXcQ"),
             ("transcript", ""), ("video_url", "dQw4w9WgXcQ")]⟩ := by
  decide

/-- C5 (amended): whenever the CHOSEN source yields zero segments after
dropping empty-text segments — whether the chosen source is the captions
provider or the ASR (whisper) fallback — the pipeline returns a SUCCESSFUL
response (status 200) whose transcript is the empty string, rather than a
`no_transcript_available` failure. -/
theorem c5_empty_segments_success :
    ∀ (w : World) (u vid : String), u ≠ "" → extract_video_id u = some vid →
      (∀ raw : List CapSegment, w.captions = .success raw →
        (∀ e ∈ raw, normText e.text = "") →
        (transcriptHandler w (.obj (some u))).1.status = 200
        ∧ ("transcript", "") ∈ (transcriptHandler w (.obj (some u))).1.body)
      ∧ (∀ (k : CapErr) (segs : List AsrSegment), w.captions = .failure k →
          w.hasKey = true → w.asr = .success segs →
          (∀ e ∈ segs, stripText e.text = "") →
          (transcriptHandler w (.obj (some u))).1.status = 200
          ∧ ("transcript", "") ∈ (transcriptHandler w (.obj (some u))).1.body) := by
  intro w u vid hu hex
  constructor
  · intro raw hcap hall
    have hfb : formatBlocks raw = "" := formatBlocks_of_empty hall
    simp [transcriptHandler, hu, hex, hcap, hfb]
  · intro k segs hcap hk ha hall
    have hfb : formatBlocksAsr segs = "" := formatBlocksAsr_of_empty hall
    simp [transcriptHandler, hu, hex, hcap, hk, ha, hfb]

/-- C5 witness: a whitespace-only caption segment is dropped and the run
still succeeds, and likewise an ASR-chosen run whose whisper segments all
strip to empty succeeds with an empty transcript. -/
theorem c5_empty_segments_witness :
    (transcriptHandler ⟨true, .success [⟨0, " "⟩], .failure⟩
        (.obj (some "dQw4w9WgXcQ"))).1.status = 200
    ∧ ("transcript", "")
        ∈ (transcriptHandler ⟨true, .failure .disabled, .success [⟨0, " "⟩]⟩
            (.obj (some "dQw4w9WgXcQ"))).1.body :=
  ⟨((c5_empty_segments_success ⟨true, .success [⟨0, " "⟩], .failure⟩
      "dQw4w9WgXcQ" "dQw4w9WgXcQ" (by decide) (by decide)).1
      [⟨0, " "⟩] rfl (by decide)).1,
   ((c5_empty_segments_success ⟨true, .failure .disabled, .success [⟨0, " "⟩]⟩
      "dQw4w9WgXcQ" "dQw4w9WgXcQ" (by decide) (by decide)).2
      CapErr.disabled [⟨0, " "⟩] rfl rfl rfl (by decide)).2⟩

/-- C6, counterexample: a successful captions run answers with the fields
`source`, `video_id`, `transcript`, `video_url` — there is no `segments`
field, no `formatted` field, and the source tag is `"youtube_captions"`,
not `"captions"` — refuting the claimed response shape. -/
theorem c6_counterexample :
    (transcriptHandler ⟨true, .success [⟨0, "Hello"⟩], .success []⟩
        (.obj (some "https://youtu.be/dQw4w9WgXcQ"))).1 =
      ⟨200, [("source", "youtube_captions"), ("video_id", "dQw4w9WgXcQ"),
             ("transcript", "00:00:00\nHello"),
             ("video_url", "https://youtu.be/dQw4w9WgXcQ")]⟩ := by
  decide

/-- C6 (amended): every successful response is a JSON object with exactly
the fields `source`, `video_id`, `transcript` (the formatted text) and
`video_url`, in that order; `source` is `"youtube_captions"` when captions
succeeded and `"whisper_fallback"` when the ASR fallback succeeded; there
are no `segments` or `formatted` fields. -/
theorem c6_response_shape :
    ∀ (w : World) (u vid : String), u ≠ "" → extract_video_id u = some vid →
      (∀ raw, w.captions = .success raw →
        (transcriptHandler w (.obj (some u))).1.body.map Prod.fst
            = ["source", "video_id", "transcript", "video_url"]
        ∧ ("source", "youtube_captions")
            ∈ (transcriptHandler w (.obj (some u))).1.body
        ∧ ("transcript", formatBlocks raw)
            ∈ (transcriptHandler w (.obj (some u))).1.body
        ∧ (transcriptHandler w (.obj (some u))).1.status = 200)
      ∧ (∀ k segs, w.captions = .failure k → w.hasKey = true →
          w.asr = .success segs →
        (transcriptHandler w (.obj (some u))).1.body.map Prod.fst
            = ["source", "video_id", "transcript", "video_url"]
        ∧ ("source", "whisper_fallback")
            ∈ (transcriptHandler w (.obj (some u))).1.body
        ∧ ("transcript", formatBlocksAsr segs)
            ∈ (transcriptHandler w (.obj (some u))).1.body
        ∧ (transcriptHandler w (.obj (some u))).1.status = 200) := by
  intro w u vid hu hex
  constructor
  · intro raw hcap
    simp [transcriptHandler, hu, hex, hcap]
  · intro k segs hcap hk ha
    simp [transcriptHandler, hu, hex, hcap, hk, ha]

/-- C6 witness: field list of a concrete captions success. -/
theorem c6_response_shape_witness :
    (transcriptHandler ⟨true, .success [⟨0, "Hello"⟩], .success []⟩
        (.obj (some "dQw4w9WgXcQ"))).1.body.map Prod.fst
      = ["source", "video_id", "transcript", "video_url"] :=
  ((c6_response_shape ⟨true, .success [⟨0, "Hello"⟩], .success []⟩
    "dQw4w9WgXcQ" "dQw4w9WgXcQ" (by decide) (by decide)).1
    [⟨0, "Hello"⟩] rfl).1

/-- C7, counterexample: the resolver applies NO whitespace trimming: the
input `" dQw4w9WgXcQ"` is, after stripping, a canonical 11-character id,
yet `extract_video_id` returns `None` on it, refuting the claim. -/
theorem c7_counterexample :
    pyStrip " dQw4w9WgXcQ".data = "dQw4w9WgXcQ".data
    ∧ extract_video_id " dQw4w9WgXcQ" = none := by
  decide

/-- C7 (amended): on any input that is exactly 11 characters drawn from
`[A-Za-z0-9_-]` (such a string can contain no `/` or `?`), the resolver is
the identity; no whitespace trimming is applied first. -/
theorem c7_identity_on_ids :
    ∀ s : String, s.length = 11 → (∀ c ∈ s.data, isIdChar c = true) →
      extract_video_id s = some s := by
  intro s hlen hchars
  have hlen' : s.data.length = 11 := hlen
  have hall : s.data.all isIdChar = true := List.all_eq_true.mpr hchars
  unfold extract_video_id
  simp [hlen', hall]

/-- C7 witness: identity on a concrete canonical id. -/
theorem c7_identity_witness :
    extract_video_id "dQw4w9WgXcQ" = some "dQw4w9WgXcQ" :=
  c7_identity_on_ids "dQw4w9WgXcQ" (by decide) (by decide)

/-- C8, counterexample: each line break is replaced by ONE space
individually, so the run of two line breaks in `"a\n\nb"` becomes two
spaces (`"a  b"`), not a single space — refuting "every run of embedded
line breaks collapsed to a single space". -/
theorem c8_counterexample :
    (transcriptHandler ⟨true, .success [⟨0, "a\n\nb"⟩], .success []⟩
        (.obj (some "dQw4w9WgXcQ"))).1 =
      ⟨200, [("source", "youtube_captions"), ("video_id", "dQw4w9WgXcQ"),
             ("transcript", "00:00:00\na  b"), ("video_url", "dQw4w9WgXcQ")]⟩
    ∧ normText "a\n\nb" = "a  b" ∧ "a  b" ≠ "a b" := by
  decide

/-- C8 (amended): every caption segment's emitted text is the track text
with EACH embedded line break replaced by one space (a run of k breaks
becomes k spaces) and leading/trailing whitespace trimmed; segments whose
resulting text is empty are dropped.  The emitted text therefore contains
no line break and neither starts nor ends with whitespace. -/
theorem c8_captions_normalization :
    (∀ (w : World) (u vid : String) (raw : List CapSegment), u ≠ "" →
      extract_video_id u = some vid → w.captions = .success raw →
      ("transcript", formatBlocks raw)
        ∈ (transcriptHandler w (.obj (some u))).1.body)
    ∧ (∀ s : String, (∀ c ∈ (normText s).data, c ≠ '\n')
        ∧ (∀ c, (normText s).data.head? = some c → c.isWhitespace = false)
        ∧ (∀ c, (normText s).data.getLast? = some c → c.isWhitespace = false))
    ∧ normText "  a\nb " = "a b"
    ∧ normText " \n " = "" := by
  refine ⟨?_, fun s => ⟨fun c hc => normText_no_newline hc,
    fun c hc => normText_head_not_ws hc,
    fun c hc => normText_getLast_not_ws hc⟩, by decide, by decide⟩
  intro w u vid raw hu hex hcap
  simp [transcriptHandler, hu, hex, hcap]

/-- C8 witness: a concrete captions success carries the normalized
transcript in its body. -/
theorem c8_captions_normalization_witness :
    ("transcript", formatBlocks [⟨0, "  a\nb "⟩])
      ∈ (transcriptHandler ⟨true, .success [⟨0, "  a\nb "⟩], .success []⟩
          (.obj (some "dQw4w9WgXcQ"))).1.body :=
  c8_captions_normalization.1 ⟨true, .success [⟨0, "  a\nb "⟩], .success []⟩
    "dQw4w9WgXcQ" "dQw4w9WgXcQ" [⟨0, "  a\nb "⟩] (by decide) (by decide) rfl

/-- C9: whenever `extract_video_id` returns a value, it is exactly 11
characters from `[0-9A-Za-z_-]`; consequently the captions provider and
the whisper fallback are only ever invoked with such a well-formed id. -/
theorem c9_resolver_wellformed :
    (∀ s v : String, extract_video_id s = some v →
      v.length = 11 ∧ ∀ c ∈ v.data, isIdChar c = true)
    ∧ (∀ (w : World) (b : Body) (vid : String),
        ((transcriptHandler w b).2.captionsProvider = some vid
          ∨ (transcriptHandler w b).2.whisperFallback = some vid) →
        vid.length = 11 ∧ ∀ c ∈ vid.data, isIdChar c = true) := by
  constructor
  · exact fun s v h => extract_video_id_shape h
  · intro w b vid h
    cases b with
    | noneOrInvalid => simp [transcriptHandler, noEff] at h
    | obj uo =>
      cases uo with
      | none => simp [transcriptHandler, noEff] at h
      | some u =>
        by_cases hu : u = ""
        · simp [transcriptHandler, hu, noEff] at h
        · cases hex : extract_video_id u with
          | none => simp [transcriptHandler, hu, hex] at h
          | some v =>
            have hwf := extract_video_id_shape hex
            cases hcap : w.captions with
            | success raw =>
              simp [transcriptHandler, hu, hex, hcap] at h
              exact h ▸ hwf
            | failure k =>
              cases hk : w.hasKey with
              | false =>
                simp [transcriptHandler, hu, hex, hcap, hk] at h
                exact h ▸ hwf
              | true =>
                cases ha : w.asr with
                | success segs =>
                  simp [transcriptHandler, hu, hex, hcap, hk, ha] at h
                  exact h ▸ hwf
                | failure =>
                  simp [transcriptHandler, hu, hex, hcap, hk, ha] at h
                  exact h ▸ hwf

/-- C9 witness: well-formedness of a concretely resolved id. -/
theorem c9_resolver_wellformed_witness :
    ("dQw4w9WgXcQ" : String).length = 11
    ∧ ∀ c ∈ ("dQw4w9WgXcQ" : String).data, isIdChar c = true :=
  c9_resolver_wellformed.1 "dQw4w9WgXcQ" "dQw4w9WgXcQ" (by decide)

/-- C10: a missing body, invalid JSON, a JSON object without `video_url`,
or an empty `video_url` all yield status 400 with the missing-`video_url`
error, and neither the resolver nor any source adapter is invoked. -/
theorem c10_missing_video_url :
    ∀ (w : World) (b : Body),
      (b = .noneOrInvalid ∨ b = .obj none ∨ b = .obj (some "")) →
      transcriptHandler w b =
        (⟨400, [("error", "Missing 'video_url' in JSON body")]⟩, noEff) := by
  intro w b h
  rcases h with rfl | rfl | rfl <;> rfl

/-- C10 witness: concrete malformed-body request. -/
theorem c10_missing_video_url_witness :
    transcriptHandler ⟨true, .success [], .success []⟩ .noneOrInvalid =
      (⟨400, [("error", "Missing 'video_url' in JSON body")]⟩, noEff) :=
  c10_missing_video_url ⟨true, .success [], .success []⟩ .noneOrInvalid
    (Or.inl rfl)

end TranscriptApi
